import Mathlib

/-!
Verification development for `sdf-net/app/sdf_renderer.py` (nglod renderer app).

The script is a CLI orchestration over torch/numpy/scipy and the sdf-net
library.  We give a shallow embedding of:
  * the `GyroidLattice` module and its `forward` method (tensor math over ℝ,
    with explicit shape bookkeeping),
  * the `__main__` block as a pure function from parsed arguments (and the
    external Fibonacci-sphere sampler) to an outcome plus a trace of
    externally visible events (weight loading, directory creation, renderer
    construction, shading calls, file writes, grid evaluations, mesh
    extraction), mirroring the source's control flow statement by statement.

Floats are idealised as exact rationals/reals; external library calls
(renderer, cube marcher, SOL export, torch ops) are recorded as events with
the exact arguments the script passes them.
-/

/-- Python `str.split(sep)` on a single-character separator, over the
character list of the string: always returns at least one (possibly empty)
chunk, and empty chunks between consecutive separators. -/
def splitOn (sep : Char) : List Char → List (List Char)
  | [] => [[]]
  | c :: cs =>
    if c = sep then
      [] :: splitOn sep cs
    else
      match splitOn sep cs with
      | [] => [[c]]
      | h :: t => (c :: h) :: t

/-- `args.pretrained.split('/')[-1]` — the final path component
(`sdf_renderer.py` line 119, first half). -/
def lastComponent (path : String) : List Char :=
  (splitOn '/' path.toList).getLastD []

/-- `name = args.pretrained.split('/')[-1].split('.')[0]`
(`sdf_renderer.py` line 119). -/
def nameOf (path : String) : String :=
  String.mk ((splitOn '.' (lastComponent path)).headD [])

/-- A file name stripped of its extension in the usual sense
(`os.path.splitext`-like: everything before the LAST dot, the whole name if
there is no dot).  This definition follows the spec's words "the path's
final component stripped of its extension" and is compared against `nameOf`,
which is translated from the source. -/
def stripExt (s : List Char) : List Char :=
  if s.contains '.' then
    (((s.reverse).dropWhile (fun c => c != '.')).drop 1).reverse
  else
    s

/-- Python `'{:06d}'.format(n)` for a natural number: decimal digits
left-padded with zeros to width 6. -/
def fmt06 (n : Nat) : String :=
  let s := toString n
  String.mk (List.replicate (6 - s.length) '0') ++ s

/-- `np.linspace(a, b, n)`: `n` evenly spaced samples from `a` to `b`
inclusive (idealised over ℚ). -/
def linspace (a b : ℚ) (n : Nat) : List ℚ :=
  (List.range n).map (fun (i : Nat) => a + (i : ℚ) * ((b - a) / ((n : ℚ) - 1)))

/-- Point in 3-space with exact rational coordinates. -/
abbrev Vec3 := ℚ × ℚ × ℚ

/-- `[[x,y,z] for x in Kx for y in Ky for z in Kz]` — the row-major list of
grid points built by the list comprehensions at lines 212 and 243. -/
def gridProd (Kx Ky Kz : List ℚ) : List Vec3 :=
  Kx.flatMap fun x => Ky.flatMap fun y => Kz.map fun z => (x, y, z)

/-- The `--sdf_grid` grid: `np.linspace(-1.1, 1.1, 150)` in each dimension
(`sdf_renderer.py` lines 211-212). -/
def sdfGridPoints : List Vec3 :=
  gridProd (linspace (-1.1) 1.1 150) (linspace (-1.1) 1.1 150)
    (linspace (-1.1) 1.1 150)

/-- The default-branch grid for marching cubes:
`Kx = np.linspace(-1., 1., 150)`, `Ky = np.linspace(-0.3, 0.5, 150)`,
`Kz = np.linspace(-0.3, 0.8, 150)` (`sdf_renderer.py` lines 240-243). -/
def marchGridPoints : List Vec3 :=
  gridProd (linspace (-1) 1 150) (linspace (-0.3) 0.5 150)
    (linspace (-0.3) 0.8 150)

/-- Symbolic expression for the network object the script threads around:
the loaded pretrained SDF network, possibly wrapped by `GyroidLattice`
(line 131) and/or by the `SOL_NGLOD` export-format wrapper (lines 138, 144). -/
inductive NetExpr where
  | sdfNet : NetExpr
  | gyroid (inner : NetExpr) : NetExpr
  | sol (inner : NetExpr) : NetExpr
deriving DecidableEq, Repr

/-- Strip `SOL_NGLOD` serialisation-format wrappers, exposing the underlying
model expression. -/
def NetExpr.core : NetExpr → NetExpr
  | NetExpr.sol e => e.core
  | NetExpr.sdfNet => NetExpr.sdfNet
  | NetExpr.gyroid e => NetExpr.gyroid e

/-- Rotation axes passed to `scipy` `R.from_rotvec` by the script: the y
axis `[0,1,0]` (line 163, `--rotate`) and the normalised negative diagonal
`[-1/sqrt(3), -1/sqrt(3), -1/sqrt(3)]` (line 170, `--r360`). -/
inductive Axis where
  | yAxis : Axis
  | negDiag : Axis
deriving DecidableEq, Repr

/-- The unit vector each `Axis` tag denotes in the source. -/
noncomputable def Axis.vec : Axis → ℝ × ℝ × ℝ
  | Axis.yAxis => (0, 1, 0)
  | Axis.negDiag =>
      (-(1 / Real.sqrt 3), -(1 / Real.sqrt 3), -(1 / Real.sqrt 3))

/-- The model matrix handed to `shade_images`: either the identity
(`torch.eye(3)`, line 165) or the rotation by `deg` degrees (converted to
radians with `np.radians` before the `from_rotvec` call) about an `Axis`. -/
inductive ModelMatrix where
  | eye : ModelMatrix
  | rotDeg (axis : Axis) (deg : ℚ) : ModelMatrix
deriving DecidableEq, Repr

/-- The angle, in radians, of a `ModelMatrix` rotation (`np.radians`). -/
noncomputable def ModelMatrix.radians : ModelMatrix → ℝ
  | ModelMatrix.eye => 0
  | ModelMatrix.rotDeg _ deg => (deg : ℝ) * Real.pi / 180

/-- Externally visible actions of a run of the `__main__` block, in program
order, each carrying exactly the arguments the script passes. -/
inductive Event where
  | loadWeights (path : String) : Event
  | saveSOL (net : NetExpr) (path : String) : Event
  | makeDir (path : String) : Event
  | mkRenderer (net : NetExpr) : Event
  | shadeImages (net : NetExpr) (f : Vec3) (t : Vec3) (fv : ℚ) (aa : Bool)
      (mm : ModelMatrix) : Event
  | saveRGBPNG (path : String) : Event
  | saveNormalPNG (path : String) : Event
  | writeEXR (path : String) : Event
  | evalNet (net : NetExpr) (grid : List Vec3) (noGrad : Bool) : Event
  | saveCSV (path : String) : Event
  | marchCubes (grid : List Vec3) : Event
  | saveOBJ (path : String) : Event
deriving DecidableEq, Repr

/-- The network object an event hands to an external collaborator, if any. -/
def Event.netOf : Event → Option NetExpr
  | Event.saveSOL n _ => some n
  | Event.mkRenderer n => some n
  | Event.shadeImages n _ _ _ _ _ => some n
  | Event.evalNet n _ _ => some n
  | _ => none

/-- Which of the four non-export modes a run executed. -/
inductive Mode where
  | r360 : Mode
  | rsphere : Mode
  | sdfGrid : Mode
  | marchCubesMode : Mode
deriving DecidableEq, Repr

/-- How a run of the `__main__` block terminates. -/
inductive Outcome where
  | assertionError : Outcome
  | exited (code : Nat) : Outcome
  | typeError (callSite : String) : Outcome
  | finished : Outcome
deriving DecidableEq, Repr

/-- Parsed command-line arguments of the script (`parse_options` plus the
`app` argument group, lines 84-111).  `exportPath` embeds `args.export`
(`export` is a reserved word in Lean). -/
structure Args where
  pretrained : Option String
  jit : Bool
  sol : Bool
  lod : Option Nat
  img_dir : String
  exr : Bool
  r360 : Bool
  rsphere : Bool
  sdf_grid : Bool
  nb_poses : Nat
  cam_radius : ℚ
  disable_aa : Bool
  exportPath : Option String
  rotate : Option ℚ
  depth : ℚ
  camera_origin : Vec3
  camera_lookat : Vec3
  camera_fov : ℚ
deriving DecidableEq, Repr

/-- Scalar multiplication of a rational 3-vector
(`cam_origins = args.cam_radius * views`, line 191). -/
def scale3 (c : ℚ) (v : Vec3) : Vec3 := (c * v.1, c * v.2.1, c * v.2.2)

/-- Result of one run of the `__main__` block. -/
structure RunResult where
  outcome : Outcome
  events : List Event
  name : Option String
  mode : Option Mode
deriving DecidableEq, Repr

/-- Directory creation performed at lines 150-157: the instance directory
`os.path.join(args.img_dir, name)` followed by its `normal`, `rgb` and
`exr` subdirectories. -/
def mkdirEvents (insDir : String) : List Event :=
  [Event.makeDir insDir,
   Event.makeDir (insDir ++ "/normal"),
   Event.makeDir (insDir ++ "/rgb"),
   Event.makeDir (insDir ++ "/exr")]

/-- The `--r360` loop (lines 167-187): for each `angle in np.arange(0, 360,
10)` the model matrix is rebuilt as the rotation by `np.radians(angle)`
about `[-1,-1,-1]/sqrt(3)`, `shade_images` is called, and the RGB image is
saved under index `int(math.floor(100 * angle)) = 100 * angle`. -/
def r360Events (a : Args) (net : NetExpr) (insDir : String) : List Event :=
  (List.range 36).flatMap fun k =>
    [Event.shadeImages net a.camera_origin a.camera_lookat a.camera_fov
       (!a.disable_aa) (ModelMatrix.rotDeg Axis.negDiag (10 * k)),
     Event.saveRGBPNG (insDir ++ "/rgb/" ++ fmt06 (100 * (10 * k)) ++ ".png")]

/-- The `--rsphere` loop (lines 189-206): `views = sample_fib_sphere(
args.nb_poses)`; for each enumerated view, `shade_images` is called from
origin `cam_radius * view` with the ambient model matrix, an EXR is written
when `--exr` is set, and the normal map is saved under the pose index. -/
def rsphereEvents (fib : Nat → List Vec3) (a : Args) (net : NetExpr)
    (insDir : String) (mm : ModelMatrix) : List Event :=
  ((fib a.nb_poses).enum).flatMap fun pv =>
    [Event.shadeImages net (scale3 a.cam_radius pv.2) a.camera_lookat
       a.camera_fov (!a.disable_aa) mm]
    ++ (if a.exr then
          [Event.writeEXR (insDir ++ "/exr/" ++ fmt06 pv.1 ++ ".exr")]
        else [])
    ++ [Event.saveNormalPNG (insDir ++ "/normal/" ++ fmt06 pv.1 ++ ".png")]

/-- Shallow embedding of the `__main__` block of `sdf_renderer.py`
(lines 81-266), parameterised by the external Fibonacci-sphere sampler
`fib` (`sample_fib_sphere` lives in `lib/geoutils`, outside this file).

Control flow mirrors the source: the `--pretrained` assertion (lines
118-121); weight loading (line 127); the gyroid wrap (line 131); the
`--export` early exit through `SOL_NGLOD` (lines 137-141); the `--sol`
wrap (lines 143-144); directory creation (lines 150-157); renderer
construction (line 159); the `--rotate` model matrix (lines 161-165); and
the `r360` / `rsphere` / `sdf_grid` / default `elif` chain (lines 167-254).

In the `sdf_grid` branch the source calls `np.hstack(sdf_arr, grid_arr)`
with two positional arguments (line 221); `np.hstack` accepts a single
tuple of arrays, so this call raises `TypeError` before `np.savetxt` and
before `exit(1)`; the branch's outcome records that error.

`mainNet` is the network object live after lines 131-144: the loaded SDF
network wrapped by `GyroidLattice`, further wrapped by `SOL_NGLOD` when
`--sol` is set. -/
def mainNet (a : Args) : NetExpr :=
  if a.sol then NetExpr.sol (NetExpr.gyroid NetExpr.sdfNet)
  else NetExpr.gyroid NetExpr.sdfNet

/-- `ins_dir = os.path.join(args.img_dir, name)` (line 150). -/
def insDirOf (a : Args) (path : String) : String :=
  a.img_dir ++ "/" ++ nameOf path

/-- The ambient model matrix from `--rotate` (lines 161-165): a rotation by
`args.rotate` degrees about the y axis, or `torch.eye(3)`. -/
def mm0Of (a : Args) : ModelMatrix :=
  match a.rotate with
  | some deg => ModelMatrix.rotDeg Axis.yAxis deg
  | none => ModelMatrix.eye

/-- Events common to all four non-export modes, in program order: weight
loading (line 127), directory creation (lines 150-157), and renderer
construction over the wrapped network (line 159). -/
def prologueEvents (a : Args) (path : String) : List Event :=
  Event.loadWeights path ::
    (mkdirEvents (insDirOf a path) ++ [Event.mkRenderer (mainNet a)])

def mainRun (fib : Nat → List Vec3) (a : Args) : RunResult :=
  match a.pretrained with
  | none => ⟨Outcome.assertionError, [], none, none⟩
  | some path =>
    match a.exportPath with
    | some ep =>
        ⟨Outcome.exited 0,
         [Event.loadWeights path,
          Event.saveSOL (NetExpr.sol (NetExpr.gyroid NetExpr.sdfNet)) ep],
         some (nameOf path), none⟩
    | none =>
      if a.r360 then
        ⟨Outcome.finished,
         prologueEvents a path ++ r360Events a (mainNet a) (insDirOf a path),
         some (nameOf path), some Mode.r360⟩
      else if a.rsphere then
        ⟨Outcome.finished,
         prologueEvents a path ++
           rsphereEvents fib a (mainNet a) (insDirOf a path) (mm0Of a),
         some (nameOf path), some Mode.rsphere⟩
      else if a.sdf_grid then
        ⟨Outcome.typeError "hstack",
         prologueEvents a path ++
           [Event.evalNet (mainNet a) sdfGridPoints false],
         some (nameOf path), some Mode.sdfGrid⟩
      else
        ⟨Outcome.finished,
         prologueEvents a path ++
           [Event.evalNet (mainNet a) marchGridPoints true,
            Event.marchCubes marchGridPoints,
            Event.saveOBJ "./marched_gyroid.obj"],
         some (nameOf path), some Mode.marchCubesMode⟩

/-- Torch devices relevant to the script. -/
inductive Device where
  | cuda : Device
  | cpu : Device
deriving DecidableEq, Repr

/-- `device = torch.device('cuda' if torch.cuda.is_available() else 'cpu')`
(lines 114-115). -/
def pickDevice (cudaAvailable : Bool) : Device :=
  if cudaAvailable then Device.cuda else Device.cpu

/-- A (1- or 2-dimensional) torch tensor of real scalars: a shape together
with its elements in row-major order. -/
structure Tensor where
  shape : List Nat
  data : List ℝ

/-- `t.reshape(-1, 1)` applied to a flat vector of values (line 75). -/
def reshapeCol (v : List ℝ) : Tensor := ⟨[v.length, 1], v⟩

/-- `torch.max(a, b)` on two tensors of equal shape: elementwise maximum. -/
noncomputable def tensorMax (a b : Tensor) : Tensor :=
  ⟨a.shape, List.zipWith max a.data b.data⟩

/-- Modelled from the spec: the pretrained neural implicit surface network
(`lib.models`, not under `src/`) is an opaque per-point signed distance
function `f`; the spec treats it as an external collaborator whose batched
forward pass maps an `(N, 3)` batch of points to the `(N, 1)` tensor of its
values at the rows. -/
noncomputable def sdfBatch (f : ℝ × ℝ × ℝ → ℝ) (x : List (ℝ × ℝ × ℝ)) :
    Tensor :=
  ⟨[x.length, 1], x.map f⟩

/-- The gyroid implicit value computed (columnwise over the batch) at lines
69-73:
`cos(2*3.14*x/kCellSize) * sin(2*3.14*y/kCellSize)
 + cos(2*3.14*y/kCellSize) * sin(2*3.14*z/kCellSize)
 + cos(2*3.14*z/kCellSize) * sin(2*3.14*x/kCellSize) - t**2`
with `kCellSize = 0.014408772790049425*3.` and isovalue `t = 0.5`. -/
noncomputable def gyroidVal (p : ℝ × ℝ × ℝ) : ℝ :=
  let kCellSize : ℝ := 0.014408772790049425 * 3
  let t : ℝ := 0.5
  (Real.cos (2 * 3.14 * p.1 / kCellSize) * Real.sin (2 * 3.14 * p.2.1 / kCellSize)
   + Real.cos (2 * 3.14 * p.2.1 / kCellSize) * Real.sin (2 * 3.14 * p.2.2 / kCellSize)
   + Real.cos (2 * 3.14 * p.2.2 / kCellSize) * Real.sin (2 * 3.14 * p.1 / kCellSize))
  - t ^ 2

/-- `GyroidLattice.forward` (lines 63-78): the gyroid implicit value of each
row, reshaped to `(-1, 1)`, maxed elementwise against `sdf_net(x)`.  The
batch `x` is the `(N, 3)` input; `f` is the wrapped SDF network's per-point
function (see `sdfBatch`). -/
noncomputable def GyroidLattice.forward (f : ℝ × ℝ × ℝ → ℝ)
    (x : List (ℝ × ℝ × ℝ)) : Tensor :=
  let gyroid := x.map gyroidVal
  tensorMax (reshapeCol gyroid) (sdfBatch f x)

/-- Python-level errors the embedding distinguishes. -/
inductive PyError where
  | cudaNotAvailable : PyError
deriving DecidableEq, Repr

/-- `GyroidLattice.forward` including the device placement at line 74:
`gyroid = torch.tensor(gyroid, device='cuda:0', ...)` requests device
`cuda:0` unconditionally, which raises when CUDA is unavailable; otherwise
the forward pass computes `GyroidLattice.forward`. -/
noncomputable def GyroidLattice.forwardOn (cudaAvailable : Bool)
    (f : ℝ × ℝ × ℝ → ℝ) (x : List (ℝ × ℝ × ℝ)) : Except PyError Tensor :=
  if cudaAvailable then Except.ok (GyroidLattice.forward f x)
  else Except.error PyError.cudaNotAvailable

/-- Recognise `shadeImages` events. -/
def Event.isShadeImages : Event → Bool
  | Event.shadeImages _ _ _ _ _ _ => true
  | _ => false

/-- Recognise `saveRGBPNG` events. -/
def Event.isSaveRGBPNG : Event → Bool
  | Event.saveRGBPNG _ => true
  | _ => false

/-- Recognise `saveNormalPNG` events. -/
def Event.isSaveNormalPNG : Event → Bool
  | Event.saveNormalPNG _ => true
  | _ => false

/-- Recognise `writeEXR` events. -/
def Event.isWriteEXR : Event → Bool
  | Event.writeEXR _ => true
  | _ => false

/-- Events belonging to the rendering/evaluation pipeline: directory
creation, renderer construction, shading, image/CSV output, grid
evaluation, and mesh extraction — everything except weight loading and the
SOL export itself. -/
def Event.isRenderSideEffect : Event → Bool
  | Event.loadWeights _ => false
  | Event.saveSOL _ _ => false
  | _ => true

/-- A concrete argument vector matching the parser defaults with a
pretrained checkpoint supplied; used to instantiate the theorems. -/
def baseArgs : Args :=
  { pretrained := some "models/armadillo.pth"
    jit := false
    sol := false
    lod := none
    img_dir := "_results/render_app/imgs"
    exr := false
    r360 := false
    rsphere := false
    sdf_grid := false
    nb_poses := 64
    cam_radius := 4
    disable_aa := false
    exportPath := none
    rotate := none
    depth := 0
    camera_origin := (-2.8, 2.8, -2.8)
    camera_lookat := (0, 0, 0)
    camera_fov := 30 }

/-- `baseArgs` with `--r360`. -/
def argsR360 : Args := { baseArgs with r360 := true }

/-- `baseArgs` with `--rsphere` and two poses. -/
def argsRSphere : Args := { baseArgs with rsphere := true, nb_poses := 2 }

/-- `baseArgs` with `--sdf_grid`. -/
def argsGrid : Args := { baseArgs with sdf_grid := true }

/-- `baseArgs` with `--export out.sol`. -/
def argsExport : Args := { baseArgs with exportPath := some "out.sol" }

/-- Arguments whose checkpoint name contains two dots, exercising the name
derivation; export mode keeps the run short. -/
def argsC7 : Args :=
  { baseArgs with pretrained := some "dir/model.v2.pth"
                  exportPath := some "out.sol" }

/-- `baseArgs` without a checkpoint. -/
def argsNoPre : Args := { baseArgs with pretrained := none }

/-- A trivial stand-in Fibonacci-sphere sampler for instantiations. -/
def fib0 : Nat → List Vec3 := fun n => List.replicate n (1, 0, 0)

/-- The flattened data of `GyroidLattice.forward` is the rowwise maximum of
the gyroid value and the SDF network value. -/
theorem forward_data (f : ℝ × ℝ × ℝ → ℝ) (x : List (ℝ × ℝ × ℝ)) :
    (GyroidLattice.forward f x).data =
      x.map (fun p => max (gyroidVal p) (f p)) := by
  simp [GyroidLattice.forward, tensorMax, reshapeCol, sdfBatch,
    List.zipWith_map, List.zipWith_same]

/-! ### Helper lemmas -/

theorem mainRun_none (fib : Nat → List Vec3) (a : Args)
    (h : a.pretrained = none) :
    mainRun fib a = ⟨Outcome.assertionError, [], none, none⟩ := by
  unfold mainRun
  rw [h]

theorem mainRun_export (fib : Nat → List Vec3) (a : Args) (path ep : String)
    (h1 : a.pretrained = some path) (h2 : a.exportPath = some ep) :
    mainRun fib a =
      ⟨Outcome.exited 0,
       [Event.loadWeights path,
        Event.saveSOL (NetExpr.sol (NetExpr.gyroid NetExpr.sdfNet)) ep],
       some (nameOf path), none⟩ := by
  unfold mainRun
  rw [h1, h2]

theorem mainRun_r360 (fib : Nat → List Vec3) (a : Args) (path : String)
    (h1 : a.pretrained = some path) (h2 : a.exportPath = none)
    (h3 : a.r360 = true) :
    mainRun fib a =
      ⟨Outcome.finished,
       prologueEvents a path ++ r360Events a (mainNet a) (insDirOf a path),
       some (nameOf path), some Mode.r360⟩ := by
  unfold mainRun
  rw [h1, h2]
  simp [h3]

theorem mainRun_rsphere (fib : Nat → List Vec3) (a : Args) (path : String)
    (h1 : a.pretrained = some path) (h2 : a.exportPath = none)
    (h3 : a.r360 = false) (h4 : a.rsphere = true) :
    mainRun fib a =
      ⟨Outcome.finished,
       prologueEvents a path ++
         rsphereEvents fib a (mainNet a) (insDirOf a path) (mm0Of a),
       some (nameOf path), some Mode.rsphere⟩ := by
  unfold mainRun
  rw [h1, h2]
  simp [h3, h4]

theorem mainRun_sdfGrid (fib : Nat → List Vec3) (a : Args) (path : String)
    (h1 : a.pretrained = some path) (h2 : a.exportPath = none)
    (h3 : a.r360 = false) (h4 : a.rsphere = false) (h5 : a.sdf_grid = true) :
    mainRun fib a =
      ⟨Outcome.typeError "hstack",
       prologueEvents a path ++
         [Event.evalNet (mainNet a) sdfGridPoints false],
       some (nameOf path), some Mode.sdfGrid⟩ := by
  unfold mainRun
  rw [h1, h2]
  simp [h3, h4, h5]

theorem mainRun_march (fib : Nat → List Vec3) (a : Args) (path : String)
    (h1 : a.pretrained = some path) (h2 : a.exportPath = none)
    (h3 : a.r360 = false) (h4 : a.rsphere = false) (h5 : a.sdf_grid = false) :
    mainRun fib a =
      ⟨Outcome.finished,
       prologueEvents a path ++
         [Event.evalNet (mainNet a) marchGridPoints true,
          Event.marchCubes marchGridPoints,
          Event.saveOBJ "./marched_gyroid.obj"],
       some (nameOf path), some Mode.marchCubesMode⟩ := by
  unfold mainRun
  rw [h1, h2]
  simp [h3, h4, h5]

theorem netOf_mkdirEvents (d : String) (e : Event)
    (he : e ∈ mkdirEvents d) : e.netOf = none := by
  simp only [mkdirEvents, List.mem_cons, List.not_mem_nil, or_false] at he
  rcases he with h | h | h | h <;> subst h <;> rfl

theorem netOf_prologueEvents (a : Args) (path : String) (e : Event)
    (he : e ∈ prologueEvents a path) :
    e.netOf = none ∨ e.netOf = some (mainNet a) := by
  simp only [prologueEvents, List.mem_cons, List.mem_append,
    List.not_mem_nil, or_false] at he
  rcases he with h | h | h
  · subst h; exact Or.inl rfl
  · exact Or.inl (netOf_mkdirEvents _ _ h)
  · subst h; exact Or.inr rfl

theorem netOf_r360Events (a : Args) (net : NetExpr) (d : String) (e : Event)
    (he : e ∈ r360Events a net d) :
    e.netOf = none ∨ e.netOf = some net := by
  simp only [r360Events, List.mem_flatMap, List.mem_range,
    List.mem_cons, List.not_mem_nil, or_false] at he
  obtain ⟨k, _, h | h⟩ := he <;> subst h
  · exact Or.inr rfl
  · exact Or.inl rfl

theorem netOf_rsphereEvents (fib : Nat → List Vec3) (a : Args)
    (net : NetExpr) (d : String) (mm : ModelMatrix) (e : Event)
    (he : e ∈ rsphereEvents fib a net d mm) :
    e.netOf = none ∨ e.netOf = some net := by
  simp only [rsphereEvents, List.mem_flatMap, List.mem_append,
    List.mem_cons, List.not_mem_nil, or_false] at he
  obtain ⟨pv, _, (h | h) | h⟩ := he
  · subst h; exact Or.inr rfl
  · cases hexr : a.exr <;> rw [hexr] at h
    · simp at h
    · simp only [if_true, List.mem_cons, List.not_mem_nil, or_false] at h
      subst h; exact Or.inl rfl
  · subst h; exact Or.inl rfl

theorem mainNet_core (a : Args) :
    (mainNet a).core = NetExpr.gyroid NetExpr.sdfNet := by
  unfold mainNet
  cases a.sol <;> rfl

/-- Every network object any event of any run hands to a collaborator has
the gyroid-wrapped loaded SDF network as its underlying model. -/
theorem mainRun_netOf (fib : Nat → List Vec3) (a : Args) (e : Event)
    (he : e ∈ (mainRun fib a).events) (n : NetExpr)
    (hn : e.netOf = some n) :
    n.core = NetExpr.gyroid NetExpr.sdfNet := by
  cases hp : a.pretrained with
  | none =>
    rw [mainRun_none fib a hp] at he
    simp at he
  | some path =>
    cases hx : a.exportPath with
    | some ep =>
      rw [mainRun_export fib a path ep hp hx] at he
      simp only [List.mem_cons, List.not_mem_nil, or_false] at he
      rcases he with h | h <;> subst h
      · simp [Event.netOf] at hn
      · simp only [Event.netOf, Option.some.injEq] at hn
        subst hn
        simp [NetExpr.core]
    | none =>
      have resolve : e.netOf = none ∨ e.netOf = some (mainNet a) → _ :=
        fun h => h.elim
          (fun h0 => absurd (h0 ▸ hn) (by simp))
          (fun h0 => by
            rw [h0] at hn
            exact (Option.some.injEq _ _ ▸ hn : mainNet a = n) ▸
              mainNet_core a)
      cases h3 : a.r360 with
      | true =>
        rw [mainRun_r360 fib a path hp hx h3] at he
        rcases List.mem_append.1 he with h | h
        · exact resolve (netOf_prologueEvents a path e h)
        · exact resolve (netOf_r360Events a (mainNet a) (insDirOf a path) e h)
      | false =>
        cases h4 : a.rsphere with
        | true =>
          rw [mainRun_rsphere fib a path hp hx h3 h4] at he
          rcases List.mem_append.1 he with h | h
          · exact resolve (netOf_prologueEvents a path e h)
          · exact resolve (netOf_rsphereEvents fib a (mainNet a)
              (insDirOf a path) (mm0Of a) e h)
        | false =>
          cases h5 : a.sdf_grid with
          | true =>
            rw [mainRun_sdfGrid fib a path hp hx h3 h4 h5] at he
            rcases List.mem_append.1 he with h | h
            · exact resolve (netOf_prologueEvents a path e h)
            · simp only [List.mem_cons, List.not_mem_nil, or_false] at h
              subst h
              exact resolve (Or.inr rfl)
          | false =>
            rw [mainRun_march fib a path hp hx h3 h4 h5] at he
            rcases List.mem_append.1 he with h | h
            · exact resolve (netOf_prologueEvents a path e h)
            · simp only [List.mem_cons, List.not_mem_nil, or_false] at h
              rcases h with h | h | h <;> subst h
              · exact resolve (Or.inr rfl)
              · simp [Event.netOf] at hn
              · simp [Event.netOf] at hn

/-! ### Claim theorems -/

/-- C1: for every run that reaches model construction, the network handed
to every mode (rendering, grid evaluation, mesh extraction, export) is the
loaded pretrained SDF network wrapped by the gyroid lattice modifier; and
for every input batch `x` of shape `(N, 3)`, the wrapped forward value at
row `i` equals the elementwise maximum of `sdf_net(x)` and the gyroid
implicit value
`cos(2*3.14*x/c)*sin(2*3.14*y/c) + cos(2*3.14*y/c)*sin(2*3.14*z/c)
 + cos(2*3.14*z/c)*sin(2*3.14*x/c) - 0.5^2`
with cell size `c = 0.014408772790049425*3`. -/
theorem C1_gyroid_wrapped_model (fib : Nat → List Vec3) (a : Args)
    (f : ℝ × ℝ × ℝ → ℝ) (x : List (ℝ × ℝ × ℝ)) (i : Nat)
    (hi : i < x.length) :
    (∀ e ∈ (mainRun fib a).events, ∀ n, e.netOf = some n →
        n.core = NetExpr.gyroid NetExpr.sdfNet)
    ∧ (GyroidLattice.forward f x).data.getD i 0 =
        max (f (x.getD i (0, 0, 0)))
          (Real.cos (2 * 3.14 * (x.getD i (0, 0, 0)).1 /
              (0.014408772790049425 * 3)) *
            Real.sin (2 * 3.14 * (x.getD i (0, 0, 0)).2.1 /
              (0.014408772790049425 * 3))
          + Real.cos (2 * 3.14 * (x.getD i (0, 0, 0)).2.1 /
              (0.014408772790049425 * 3)) *
            Real.sin (2 * 3.14 * (x.getD i (0, 0, 0)).2.2 /
              (0.014408772790049425 * 3))
          + Real.cos (2 * 3.14 * (x.getD i (0, 0, 0)).2.2 /
              (0.014408772790049425 * 3)) *
            Real.sin (2 * 3.14 * (x.getD i (0, 0, 0)).1 /
              (0.014408772790049425 * 3))
          - 0.5 ^ 2) := by
  refine ⟨fun e he n hn => mainRun_netOf fib a e he n hn, ?_⟩
  rw [forward_data]
  rw [List.getD_eq_getElem _ _ (by simpa using hi), List.getElem_map,
    List.getD_eq_getElem x (0, 0, 0) hi]
  rw [max_comm]
  simp only [gyroidVal]

/-- Closed instantiation of `C1_gyroid_wrapped_model`. -/
theorem C1_gyroid_wrapped_model_witness :
    (∀ e ∈ (mainRun fib0 baseArgs).events, ∀ n, e.netOf = some n →
        n.core = NetExpr.gyroid NetExpr.sdfNet)
    ∧ (GyroidLattice.forward (fun _ => 0) [((1 : ℝ), 2, 3)]).data.getD 0 0 =
        max ((fun _ => (0 : ℝ)) (([((1 : ℝ), 2, 3)]).getD 0 (0, 0, 0)))
          (Real.cos (2 * 3.14 * (([((1 : ℝ), 2, 3)]).getD 0 (0, 0, 0)).1 /
              (0.014408772790049425 * 3)) *
            Real.sin (2 * 3.14 * (([((1 : ℝ), 2, 3)]).getD 0 (0, 0, 0)).2.1 /
              (0.014408772790049425 * 3))
          + Real.cos (2 * 3.14 * (([((1 : ℝ), 2, 3)]).getD 0 (0, 0, 0)).2.1 /
              (0.014408772790049425 * 3)) *
            Real.sin (2 * 3.14 * (([((1 : ℝ), 2, 3)]).getD 0 (0, 0, 0)).2.2 /
              (0.014408772790049425 * 3))
          + Real.cos (2 * 3.14 * (([((1 : ℝ), 2, 3)]).getD 0 (0, 0, 0)).2.2 /
              (0.014408772790049425 * 3)) *
            Real.sin (2 * 3.14 * (([((1 : ℝ), 2, 3)]).getD 0 (0, 0, 0)).1 /
              (0.014408772790049425 * 3))
          - 0.5 ^ 2) :=
  C1_gyroid_wrapped_model fib0 baseArgs (fun _ => 0) [(1, 2, 3)] 0
    (by decide)

/-- The mode a non-export run executes, resolved by the `elif` chain. -/
theorem mainRun_mode (fib : Nat → List Vec3) (a : Args) (path : String)
    (h1 : a.pretrained = some path) (h2 : a.exportPath = none) :
    (mainRun fib a).mode =
      some (if a.r360 then Mode.r360
            else if a.rsphere then Mode.rsphere
            else if a.sdf_grid then Mode.sdfGrid
            else Mode.marchCubesMode) := by
  cases h3 : a.r360 with
  | true => rw [mainRun_r360 fib a path h1 h2 h3]; simp [h3]
  | false =>
    cases h4 : a.rsphere with
    | true => rw [mainRun_rsphere fib a path h1 h2 h3 h4]; simp [h3, h4]
    | false =>
      cases h5 : a.sdf_grid with
      | true => rw [mainRun_sdfGrid fib a path h1 h2 h3 h4 h5]; simp [h3, h4, h5]
      | false => rw [mainRun_march fib a path h1 h2 h3 h4 h5]; simp [h3, h4, h5]

/-- C2: on every run that is not an export run (and that passes the
`--pretrained` check), exactly one of the four modes executes, selected by
flag priority: `--r360`, else `--rsphere`, else `--sdf_grid`, else
marching-cubes extraction. -/
theorem C2_mode_priority (fib : Nat → List Vec3) (a : Args) (path : String)
    (h1 : a.pretrained = some path) (h2 : a.exportPath = none) :
    ((mainRun fib a).mode = some Mode.r360 ↔ a.r360 = true)
    ∧ ((mainRun fib a).mode = some Mode.rsphere ↔
        a.r360 = false ∧ a.rsphere = true)
    ∧ ((mainRun fib a).mode = some Mode.sdfGrid ↔
        a.r360 = false ∧ a.rsphere = false ∧ a.sdf_grid = true)
    ∧ ((mainRun fib a).mode = some Mode.marchCubesMode ↔
        a.r360 = false ∧ a.rsphere = false ∧ a.sdf_grid = false)
    ∧ ∃! m : Mode, (mainRun fib a).mode = some m := by
  rw [mainRun_mode fib a path h1 h2]
  refine ⟨?_, ?_, ?_, ?_, ⟨_, rfl, fun y hy => by simpa using hy.symm⟩⟩ <;>
    cases h3 : a.r360 <;> cases h4 : a.rsphere <;> cases h5 : a.sdf_grid <;>
      simp [h3, h4, h5]

/-- Closed instantiation of `C2_mode_priority`. -/
theorem C2_mode_priority_witness :
    ((mainRun fib0 baseArgs).mode = some Mode.r360 ↔ baseArgs.r360 = true)
    ∧ ((mainRun fib0 baseArgs).mode = some Mode.rsphere ↔
        baseArgs.r360 = false ∧ baseArgs.rsphere = true)
    ∧ ((mainRun fib0 baseArgs).mode = some Mode.sdfGrid ↔
        baseArgs.r360 = false ∧ baseArgs.rsphere = false ∧
          baseArgs.sdf_grid = true)
    ∧ ((mainRun fib0 baseArgs).mode = some Mode.marchCubesMode ↔
        baseArgs.r360 = false ∧ baseArgs.rsphere = false ∧
          baseArgs.sdf_grid = false)
    ∧ ∃! m : Mode, (mainRun fib0 baseArgs).mode = some m :=
  C2_mode_priority fib0 baseArgs "models/armadillo.pth" rfl rfl

theorem linspace_length (a b : ℚ) (n : Nat) : (linspace a b n).length = n := by
  simp only [linspace, List.length_map, List.length_range]

theorem gridProd_length (Kx Ky Kz : List ℚ) :
    (gridProd Kx Ky Kz).length = Kx.length * (Ky.length * Kz.length) := by
  have inner : ∀ x : ℚ,
      (Ky.flatMap fun y => Kz.map fun z => (x, y, z)).length =
        Ky.length * Kz.length := by
    intro x
    simp only [List.length_flatMap, Function.comp_def, List.length_map]
    simp [List.map_const', List.sum_replicate, smul_eq_mul, mul_comm]
  simp only [gridProd, List.length_flatMap, Function.comp_def, inner]
  simp [List.map_const', List.sum_replicate, smul_eq_mul, mul_comm]

/-- C3 (code bug): in `--sdf_grid` mode the program builds the
150-per-dimension grid over `[-1.1, 1.1]^3` and evaluates the wrapped SDF
on it, but the run then raises `TypeError` at `np.hstack(sdf, grid)`
(line 221 passes two positional arguments where `np.hstack` takes one
tuple), so `sdf.csv` is never written and `exit(1)` is never reached — the
claimed successful completion and CSV production do not happen. -/
theorem C3_sdf_grid_hstack_bug :
    (mainRun fib0 argsGrid).outcome = Outcome.typeError "hstack"
    ∧ Event.evalNet (NetExpr.gyroid NetExpr.sdfNet) sdfGridPoints false ∈
        (mainRun fib0 argsGrid).events
    ∧ (∀ e ∈ (mainRun fib0 argsGrid).events, ∀ p, e ≠ Event.saveCSV p)
    ∧ (mainRun fib0 argsGrid).outcome ≠ Outcome.exited 1
    ∧ sdfGridPoints.length = 150 * 150 * 150 := by
  have hb := mainRun_sdfGrid fib0 argsGrid "models/armadillo.pth" rfl rfl
    rfl rfl rfl
  rw [hb]
  have hnet : mainNet argsGrid = NetExpr.gyroid NetExpr.sdfNet := rfl
  refine ⟨rfl, ?_, ?_, by simp, ?_⟩
  · rw [hnet]
    simp
  · intro e he p
    simp only [prologueEvents, mkdirEvents, List.mem_append, List.mem_cons,
      List.not_mem_nil, or_false] at he
    rcases he with (h | (h | h | h | h) | h) | h <;> subst h <;> simp
  · rw [sdfGridPoints, gridProd_length]
    simp [linspace_length]

/-- C4: in the default mode (no `--r360`, `--rsphere`, `--sdf_grid`,
`--export`), the program evaluates the wrapped SDF on a `150^3` uniform
grid over `[-1,1] x [-0.3,0.5] x [-0.3,0.8]` with gradients disabled,
passes the grid and SDF values to the cube marcher, and saves the mesh to
`./marched_gyroid.obj`. -/
theorem C4_default_march (fib : Nat → List Vec3) (a : Args) (path : String)
    (h1 : a.pretrained = some path) (h2 : a.exportPath = none)
    (h3 : a.r360 = false) (h4 : a.rsphere = false)
    (h5 : a.sdf_grid = false) :
    (mainRun fib a).events =
      prologueEvents a path ++
        [Event.evalNet (mainNet a) marchGridPoints true,
         Event.marchCubes marchGridPoints,
         Event.saveOBJ "./marched_gyroid.obj"]
    ∧ (mainRun fib a).outcome = Outcome.finished
    ∧ marchGridPoints =
        gridProd (linspace (-1) 1 150) (linspace (-0.3) 0.5 150)
          (linspace (-0.3) 0.8 150)
    ∧ marchGridPoints.length = 150 * 150 * 150 := by
  rw [mainRun_march fib a path h1 h2 h3 h4 h5]
  refine ⟨rfl, rfl, rfl, ?_⟩
  rw [marchGridPoints, gridProd_length]
  simp [linspace_length]

/-- Closed instantiation of `C4_default_march`. -/
theorem C4_default_march_witness :
    (mainRun fib0 baseArgs).events =
      prologueEvents baseArgs "models/armadillo.pth" ++
        [Event.evalNet (mainNet baseArgs) marchGridPoints true,
         Event.marchCubes marchGridPoints,
         Event.saveOBJ "./marched_gyroid.obj"]
    ∧ (mainRun fib0 baseArgs).outcome = Outcome.finished
    ∧ marchGridPoints =
        gridProd (linspace (-1) 1 150) (linspace (-0.3) 0.5 150)
          (linspace (-0.3) 0.8 150)
    ∧ marchGridPoints.length = 150 * 150 * 150 :=
  C4_default_march fib0 baseArgs "models/armadillo.pth" rfl rfl rfl rfl rfl

/-- C5: in `--r360` mode the program renders exactly 36 images, one per
angle in `{0, 10, ..., 350}` degrees (the angle of iteration `k` is
`10*k`), each time setting the model matrix to the rotation by that angle
about the axis `(-1,-1,-1)/sqrt(3)`, saving each image as an RGB PNG whose
filename index is `floor(100 * angle) = 100 * (10*k)`; any `--rotate`
model matrix set earlier is overridden (the trace is independent of
`args.rotate`). -/
theorem C5_r360_spin (fib : Nat → List Vec3) (a : Args) (path : String)
    (h1 : a.pretrained = some path) (h2 : a.exportPath = none)
    (h3 : a.r360 = true) :
    (mainRun fib a).events =
      prologueEvents a path ++
        (List.range 36).flatMap (fun k =>
          [Event.shadeImages (mainNet a) a.camera_origin a.camera_lookat
             a.camera_fov (!a.disable_aa)
             (ModelMatrix.rotDeg Axis.negDiag (10 * k)),
           Event.saveRGBPNG (insDirOf a path ++ "/rgb/" ++
             fmt06 (100 * (10 * k)) ++ ".png")])
    ∧ (mainRun fib a).events.countP Event.isSaveRGBPNG = 36
    ∧ (mainRun fib a).events.countP Event.isShadeImages = 36
    ∧ (∀ rot : Option ℚ,
        (mainRun fib { a with rotate := rot }).events =
          (mainRun fib a).events)
    ∧ Axis.negDiag.vec =
        (-(1 / Real.sqrt 3), -(1 / Real.sqrt 3), -(1 / Real.sqrt 3)) := by
  have hb := mainRun_r360 fib a path h1 h2 h3
  refine ⟨by rw [hb]; rfl, ?_, ?_, ?_, rfl⟩
  · rw [hb]
    simp [List.countP_append, prologueEvents, mkdirEvents, r360Events,
      List.countP_flatMap, List.countP_cons, Event.isSaveRGBPNG,
      Function.comp_def, List.map_const', List.sum_replicate]
  · rw [hb]
    simp [List.countP_append, prologueEvents, mkdirEvents, r360Events,
      List.countP_flatMap, List.countP_cons, Event.isShadeImages,
      Function.comp_def, List.map_const', List.sum_replicate]
  · intro rot
    rw [mainRun_r360 fib { a with rotate := rot } path h1 h2 h3, hb]
    rfl

/-- Closed instantiation of `C5_r360_spin`. -/
theorem C5_r360_spin_witness :
    (mainRun fib0 argsR360).events =
      prologueEvents argsR360 "models/armadillo.pth" ++
        (List.range 36).flatMap (fun k =>
          [Event.shadeImages (mainNet argsR360) argsR360.camera_origin
             argsR360.camera_lookat argsR360.camera_fov
             (!argsR360.disable_aa)
             (ModelMatrix.rotDeg Axis.negDiag (10 * k)),
           Event.saveRGBPNG (insDirOf argsR360 "models/armadillo.pth" ++
             "/rgb/" ++ fmt06 (100 * (10 * k)) ++ ".png")])
    ∧ (mainRun fib0 argsR360).events.countP Event.isSaveRGBPNG = 36
    ∧ (mainRun fib0 argsR360).events.countP Event.isShadeImages = 36
    ∧ (∀ rot : Option ℚ,
        (mainRun fib0 { argsR360 with rotate := rot }).events =
          (mainRun fib0 argsR360).events)
    ∧ Axis.negDiag.vec =
        (-(1 / Real.sqrt 3), -(1 / Real.sqrt 3), -(1 / Real.sqrt 3)) :=
  C5_r360_spin fib0 argsR360 "models/armadillo.pth" rfl rfl rfl

/-- C6: in `--rsphere` mode the program renders exactly `nb_poses` views
whose camera origins are `cam_radius` times the Fibonacci-sphere sample
directions; each pose saves a normal-map PNG indexed by the pose number,
and an EXR file is written for a pose exactly when `--exr` is given.  The
external sampler `sample_fib_sphere` is abstracted by `fib`, assumed to
return `nb_poses` directions. -/
theorem C6_rsphere_views (fib : Nat → List Vec3) (a : Args) (path : String)
    (h1 : a.pretrained = some path) (h2 : a.exportPath = none)
    (h3 : a.r360 = false) (h4 : a.rsphere = true)
    (hfib : (fib a.nb_poses).length = a.nb_poses) :
    (mainRun fib a).events =
      prologueEvents a path ++
        ((fib a.nb_poses).enum).flatMap (fun pv =>
          [Event.shadeImages (mainNet a) (scale3 a.cam_radius pv.2)
             a.camera_lookat a.camera_fov (!a.disable_aa) (mm0Of a)]
          ++ (if a.exr then
                [Event.writeEXR (insDirOf a path ++ "/exr/" ++
                   fmt06 pv.1 ++ ".exr")]
              else [])
          ++ [Event.saveNormalPNG (insDirOf a path ++ "/normal/" ++
                fmt06 pv.1 ++ ".png")])
    ∧ (mainRun fib a).events.countP Event.isShadeImages = a.nb_poses
    ∧ (mainRun fib a).events.countP Event.isSaveNormalPNG = a.nb_poses
    ∧ (mainRun fib a).events.countP Event.isWriteEXR =
        (if a.exr then a.nb_poses else 0) := by
  have hb := mainRun_rsphere fib a path h1 h2 h3 h4
  refine ⟨by rw [hb]; rfl, ?_, ?_, ?_⟩ <;> rw [hb] <;>
    cases hexr : a.exr <;>
      simp [List.countP_append, prologueEvents, mkdirEvents, rsphereEvents,
        List.countP_flatMap, List.countP_cons, Function.comp_def, hexr,
        Event.isShadeImages, Event.isSaveNormalPNG, Event.isWriteEXR,
        List.map_const', List.sum_replicate, List.enum_length, hfib]

/-- Closed instantiation of `C6_rsphere_views`. -/
theorem C6_rsphere_views_witness :
    (mainRun fib0 argsRSphere).events =
      prologueEvents argsRSphere "models/armadillo.pth" ++
        ((fib0 argsRSphere.nb_poses).enum).flatMap (fun pv =>
          [Event.shadeImages (mainNet argsRSphere)
             (scale3 argsRSphere.cam_radius pv.2) argsRSphere.camera_lookat
             argsRSphere.camera_fov (!argsRSphere.disable_aa)
             (mm0Of argsRSphere)]
          ++ (if argsRSphere.exr then
                [Event.writeEXR (insDirOf argsRSphere "models/armadillo.pth"
                   ++ "/exr/" ++ fmt06 pv.1 ++ ".exr")]
              else [])
          ++ [Event.saveNormalPNG (insDirOf argsRSphere
                "models/armadillo.pth" ++ "/normal/" ++ fmt06 pv.1 ++
                ".png")])
    ∧ (mainRun fib0 argsRSphere).events.countP Event.isShadeImages =
        argsRSphere.nb_poses
    ∧ (mainRun fib0 argsRSphere).events.countP Event.isSaveNormalPNG =
        argsRSphere.nb_poses
    ∧ (mainRun fib0 argsRSphere).events.countP Event.isWriteEXR =
        (if argsRSphere.exr then argsRSphere.nb_poses else 0) :=
  C6_rsphere_views fib0 argsRSphere "models/armadillo.pth" rfl rfl rfl rfl
    (by simp [fib0])

theorem splitOn_ne_nil (sep : Char) (l : List Char) : splitOn sep l ≠ [] := by
  induction l with
  | nil => simp [splitOn]
  | cons c cs ih =>
    by_cases h : c = sep
    · simp [splitOn, h]
    · simp only [splitOn, if_neg h]
      cases hs : splitOn sep cs <;> simp

/-- The first chunk of a split is the longest separator-free prefix —
Python's `s.split(sep)[0]`. -/
theorem splitOn_headD_takeWhile (sep : Char) (l : List Char) :
    (splitOn sep l).headD [] = l.takeWhile (fun c => c != sep) := by
  induction l with
  | nil => rfl
  | cons c cs ih =>
    by_cases h : c = sep
    · subst h
      simp [splitOn, List.takeWhile]
    · simp only [splitOn, if_neg h]
      cases hs : splitOn sep cs with
      | nil => exact absurd hs (splitOn_ne_nil sep cs)
      | cons hd tl =>
        rw [hs] at ih
        simp only [List.headD_cons] at ih
        have hcb : (c != sep) = true := by simp [h]
        simp [List.takeWhile, hcb, ← ih]

theorem mainRun_head_name (fib : Nat → List Vec3) (a : Args) (path : String)
    (hp : a.pretrained = some path) :
    (mainRun fib a).events.head? = some (Event.loadWeights path)
    ∧ (mainRun fib a).name = some (nameOf path) := by
  cases hx : a.exportPath with
  | some ep => rw [mainRun_export fib a path ep hp hx]; exact ⟨rfl, rfl⟩
  | none =>
    cases h3 : a.r360 with
    | true => rw [mainRun_r360 fib a path hp hx h3]; exact ⟨rfl, rfl⟩
    | false =>
      cases h4 : a.rsphere with
      | true => rw [mainRun_rsphere fib a path hp hx h3 h4]; exact ⟨rfl, rfl⟩
      | false =>
        cases h5 : a.sdf_grid with
        | true =>
          rw [mainRun_sdfGrid fib a path hp hx h3 h4 h5]; exact ⟨rfl, rfl⟩
        | false =>
          rw [mainRun_march fib a path hp hx h3 h4 h5]; exact ⟨rfl, rfl⟩

/-- C7 counterexample: the source derives the model name by truncating the
final path component at its FIRST dot, which differs from "stripped of its
extension" on a checkpoint name with two dots: for
`--pretrained dir/model.v2.pth` the run uses name `"model"`, not
`"model.v2"`. -/
theorem C7_counterexample :
    nameOf "dir/model.v2.pth" = "model"
    ∧ String.mk (stripExt (lastComponent "dir/model.v2.pth")) = "model.v2"
    ∧ nameOf "dir/model.v2.pth" ≠
        String.mk (stripExt (lastComponent "dir/model.v2.pth"))
    ∧ (mainRun fib0 argsC7).name = some "model" := by
  refine ⟨by decide, by decide, by decide, ?_⟩
  rw [mainRun_export fib0 argsC7 "dir/model.v2.pth" "out.sol" rfl rfl]
  decide

/-- C7 (amended): if `--pretrained` is absent the run aborts with an
`AssertionError` before anything happens (no weights are loaded, no network
is constructed, no event occurs); if it is present, the first action is
loading the weights from that path and the model name is the final path
component truncated at its first dot. -/
theorem C7_pretrained_guard (fib : Nat → List Vec3) (a : Args) :
    (a.pretrained = none →
      mainRun fib a = ⟨Outcome.assertionError, [], none, none⟩)
    ∧ (∀ path, a.pretrained = some path →
        (mainRun fib a).events.head? = some (Event.loadWeights path)
        ∧ (mainRun fib a).name = some (nameOf path)
        ∧ nameOf path =
            String.mk ((lastComponent path).takeWhile (fun c => c != '.'))) := by
  refine ⟨fun h => mainRun_none fib a h, fun path hp => ?_⟩
  obtain ⟨hhead, hname⟩ := mainRun_head_name fib a path hp
  exact ⟨hhead, hname, by rw [nameOf, splitOn_headD_takeWhile]⟩

/-- Closed instantiation of `C7_pretrained_guard`. -/
theorem C7_pretrained_guard_witness :
    (mainRun fib0 argsNoPre = ⟨Outcome.assertionError, [], none, none⟩)
    ∧ ((mainRun fib0 baseArgs).events.head? =
         some (Event.loadWeights "models/armadillo.pth")
       ∧ (mainRun fib0 baseArgs).name = some (nameOf "models/armadillo.pth")
       ∧ nameOf "models/armadillo.pth" =
           String.mk ((lastComponent "models/armadillo.pth").takeWhile
             (fun c => c != '.'))) :=
  ⟨(C7_pretrained_guard fib0 argsNoPre).1 rfl,
   (C7_pretrained_guard fib0 baseArgs).2 "models/armadillo.pth" rfl⟩

/-- C8: when `--export` is given, the run wraps the gyroid-wrapped model in
the SOL export format, saves it to the given path, and exits immediately:
its only events are the weight load and the SOL save — no directory is
created, no renderer is constructed, and no rendering, grid evaluation, or
mesh extraction occurs. -/
theorem C8_export_early_exit (fib : Nat → List Vec3) (a : Args)
    (path ep : String) (h1 : a.pretrained = some path)
    (h2 : a.exportPath = some ep) :
    (mainRun fib a).events =
      [Event.loadWeights path,
       Event.saveSOL (NetExpr.sol (NetExpr.gyroid NetExpr.sdfNet)) ep]
    ∧ (mainRun fib a).outcome = Outcome.exited 0
    ∧ (∀ e ∈ (mainRun fib a).events, e.isRenderSideEffect = false) := by
  rw [mainRun_export fib a path ep h1 h2]
  refine ⟨rfl, rfl, ?_⟩
  intro e he
  simp only [List.mem_cons, List.not_mem_nil, or_false] at he
  rcases he with h | h <;> subst h <;> rfl

/-- Closed instantiation of `C8_export_early_exit`. -/
theorem C8_export_early_exit_witness :
    (mainRun fib0 argsExport).events =
      [Event.loadWeights "models/armadillo.pth",
       Event.saveSOL (NetExpr.sol (NetExpr.gyroid NetExpr.sdfNet)) "out.sol"]
    ∧ (mainRun fib0 argsExport).outcome = Outcome.exited 0
    ∧ (∀ e ∈ (mainRun fib0 argsExport).events,
        e.isRenderSideEffect = false) :=
  C8_export_early_exit fib0 argsExport "models/armadillo.pth" "out.sol"
    rfl rfl

/-- C9 (implicit): for every input batch `x` of shape `(N, 3)`,
`GyroidLattice.forward` returns a tensor of shape `(N, 1)` — the gyroid
term is reshaped to `(-1, 1)` before the elementwise maximum — and not a
tensor of shape `(N,)` as its docstring states. -/
theorem C9_forward_shape (f : ℝ × ℝ × ℝ → ℝ) (x : List (ℝ × ℝ × ℝ)) :
    (GyroidLattice.forward f x).shape = [x.length, 1]
    ∧ (GyroidLattice.forward f x).shape ≠ [x.length] := by
  have hs : (GyroidLattice.forward f x).shape = [x.length, 1] := by
    simp [GyroidLattice.forward, tensorMax, reshapeCol, sdfBatch]
  exact ⟨hs, by rw [hs]; simp⟩

/-- C10 (implicit): every non-export run hands the wrapped network to an
evaluating collaborator, the script's device selection falls back to CPU
when CUDA is unavailable, yet `GyroidLattice.forward` unconditionally
places its gyroid tensor on `cuda:0`, so the forward pass fails on a
machine without CUDA. -/
theorem C10_cuda_required (fib : Nat → List Vec3) (a : Args) (path : String)
    (h1 : a.pretrained = some path) (h2 : a.exportPath = none) :
    (∃ e ∈ (mainRun fib a).events, e.netOf.isSome = true)
    ∧ pickDevice false = Device.cpu
    ∧ pickDevice true = Device.cuda
    ∧ (∀ (f : ℝ × ℝ × ℝ → ℝ) (x : List (ℝ × ℝ × ℝ)),
        GyroidLattice.forwardOn false f x =
          Except.error PyError.cudaNotAvailable) := by
  refine ⟨?_, rfl, rfl, fun f x => rfl⟩
  have hmem : ∀ rest : List Event,
      Event.mkRenderer (mainNet a) ∈ prologueEvents a path ++ rest := by
    intro rest
    simp [prologueEvents, mkdirEvents]
  cases h3 : a.r360 with
  | true =>
    rw [mainRun_r360 fib a path h1 h2 h3]
    exact ⟨Event.mkRenderer (mainNet a), hmem _, rfl⟩
  | false =>
    cases h4 : a.rsphere with
    | true =>
      rw [mainRun_rsphere fib a path h1 h2 h3 h4]
      exact ⟨Event.mkRenderer (mainNet a), hmem _, rfl⟩
    | false =>
      cases h5 : a.sdf_grid with
      | true =>
        rw [mainRun_sdfGrid fib a path h1 h2 h3 h4 h5]
        exact ⟨Event.mkRenderer (mainNet a), hmem _, rfl⟩
      | false =>
        rw [mainRun_march fib a path h1 h2 h3 h4 h5]
        exact ⟨Event.mkRenderer (mainNet a), hmem _, rfl⟩

/-- Closed instantiation of `C10_cuda_required`. -/
theorem C10_cuda_required_witness :
    (∃ e ∈ (mainRun fib0 baseArgs).events, e.netOf.isSome = true)
    ∧ pickDevice false = Device.cpu
    ∧ pickDevice true = Device.cuda
    ∧ (∀ (f : ℝ × ℝ × ℝ → ℝ) (x : List (ℝ × ℝ × ℝ)),
        GyroidLattice.forwardOn false f x =
          Except.error PyError.cudaNotAvailable) :=
  C10_cuda_required fib0 baseArgs "models/armadillo.pth" rfl rfl
